import Mathlib

/-!
Verification of the monitoring / drift-detection subsystem of the
CIFAR-10 inference service (module `stage1_cifar10/monitoring.py`).

The `ModelMonitor` class is embedded shallowly: its four bounded deques
become lists trimmed FIFO at `window_size`, floats become rationals, and
each method becomes a pure function on the `ModelMonitor` state.
Prometheus/metric-registry side effects and the lock are external to the
window-store logic and are not modelled.
-/

set_option maxRecDepth 100000

namespace CifarMonitoring

/-- One prediction record, mirroring the `PredictionRecord` dataclass.
The timestamp is opaque (a number); floats are embedded as rationals. -/
structure PredictionRecord where
  timestamp : Nat
  predicted_class : String
  confidence : ℚ
  processing_time : ℚ
  input_size : Nat × Nat
  success : Bool
  error_message : Option String := none
  deriving DecidableEq, Repr

/-- Aggregate metrics value, mirroring the `ModelMetrics` dataclass with
its field defaults (`__post_init__` turns the `None` defaults into an
empty dict / empty list). The class distribution is an insertion-ordered
association list, as a Python dict is. -/
structure ModelMetrics where
  total_predictions : Nat := 0
  successful_predictions : Nat := 0
  failed_predictions : Nat := 0
  avg_confidence : ℚ := 0
  avg_processing_time : ℚ := 0
  class_distribution : List (String × Nat) := []
  recent_errors : List String := []
  deriving DecidableEq, Repr

/-- The `ModelMonitor` state: the four parallel deques (lists, most
recent last), the configuration, and the optional baseline. -/
structure ModelMonitor where
  window_size : Nat := 1000
  drift_threshold : ℚ := 1/10
  predictions_history : List PredictionRecord := []
  confidence_history : List ℚ := []
  processing_times : List ℚ := []
  class_distribution_history : List (List (String × Nat)) := []
  baseline_metrics : Option ModelMetrics := none
  deriving DecidableEq, Repr

/-- Constructor `ModelMonitor.__init__(window_size, drift_threshold)`. -/
def initMonitor (window_size : Nat) (drift_threshold : ℚ) : ModelMonitor :=
  { window_size := window_size, drift_threshold := drift_threshold }

/-- Append as `deque(maxlen=n).append(x)`: append on the right, evict from the left
when the bound is exceeded. -/
def dequeAppend {α : Type} (maxlen : Nat) (xs : List α) (x : α) : List α :=
  if maxlen < (xs ++ [x]).length then (xs ++ [x]).drop ((xs ++ [x]).length - maxlen)
  else xs ++ [x]

/-- Python `xs[-n:]`: the at most `n` last elements, in order. -/
def takeLast {α : Type} (n : Nat) (xs : List α) : List α :=
  xs.drop (xs.length - n)

/-- One step of the `defaultdict(int)` counting loop: increment the count
of class `c`, first occurrence appended at the end (dict insertion order). -/
def bump (d : List (String × Nat)) (c : String) : List (String × Nat) :=
  match d with
  | [] => [(c, 1)]
  | kv :: rest => if kv.1 = c then (kv.1, kv.2 + 1) :: rest else kv :: bump rest c

/-- The `current_dist` loop of `record_prediction` / `class_dist` loop of
`get_metrics`: class counts over a list of records. -/
def countDist (ps : List PredictionRecord) : List (String × Nat) :=
  ps.foldl (fun d p => bump d p.predicted_class) []

/-- Python `dict.get(c, 0)` on an association list. -/
def lookupD (d : List (String × Nat)) (c : String) : Nat :=
  match d with
  | [] => 0
  | kv :: rest => if kv.1 = c then kv.2 else lookupD rest c

/-- Python `sum(d.values())`. -/
def sumVals (d : List (String × Nat)) : Nat :=
  (d.map (fun kv => kv.2)).sum

/-- Model of `np.mean` on a list of rationals (exact arithmetic mean). -/
def mean (xs : List ℚ) : ℚ :=
  xs.sum / (xs.length : ℚ)

/-- Method `ModelMonitor.record_prediction`: append the record, its confidence
and its processing time to their deques, then recompute the class
distribution over the whole live window and append that snapshot. -/
def record_prediction (m : ModelMonitor) (p : PredictionRecord) : ModelMonitor :=
  let ph := dequeAppend m.window_size m.predictions_history p
  { m with
    predictions_history := ph
    confidence_history := dequeAppend m.window_size m.confidence_history p.confidence
    processing_times := dequeAppend m.window_size m.processing_times p.processing_time
    class_distribution_history := dequeAppend m.window_size m.class_distribution_history (countDist ph) }

/-- Record a whole sequence of predictions in order. -/
def recordAll (m : ModelMonitor) (ps : List PredictionRecord) : ModelMonitor :=
  ps.foldl record_prediction m

/-- A monitor freshly constructed and fed the predictions `ps` in order. -/
def runMonitor (cap : Nat) (t : ℚ) (ps : List PredictionRecord) : ModelMonitor :=
  recordAll (initMonitor cap t) ps

/-- Method `ModelMonitor.set_baseline`. -/
def set_baseline (m : ModelMonitor) (b : ModelMetrics) : ModelMonitor :=
  { m with baseline_metrics := some b }

/-- The `if p.error_message` filter of the `recent_errors` comprehension:
Python truthiness keeps a message iff it is neither `None` nor `""`. -/
def truthyMessage (p : PredictionRecord) : Option String :=
  match p.error_message with
  | none => none
  | some s => if s = "" then none else some s

/-- Method `ModelMonitor.get_metrics`. -/
def get_metrics (m : ModelMonitor) : ModelMetrics :=
  if m.predictions_history.isEmpty then {}
  else
    let predictions := m.predictions_history
    let successful := predictions.filter (fun p => p.success)
    let failed := predictions.filter (fun p => !p.success)
    let avg_confidence :=
      if successful.isEmpty then 0 else mean (successful.map (fun p => p.confidence))
    let avg_processing_time :=
      if predictions.isEmpty then 0 else mean (predictions.map (fun p => p.processing_time))
    let class_dist := countDist predictions
    let recent_errors := (takeLast 10 failed).filterMap truthyMessage
    { total_predictions := predictions.length
      successful_predictions := successful.length
      failed_predictions := failed.length
      avg_confidence := avg_confidence
      avg_processing_time := avg_processing_time
      class_distribution := class_dist
      recent_errors := recent_errors }

/-- The metrics read as a state transformer: the method only reads the
window under the lock, so the state after the call is the state before. -/
def get_metricsS (m : ModelMonitor) : ModelMetrics × ModelMonitor :=
  (get_metrics m, m)

/-- The report dictionary returned by `detect_drift`: either the short
insufficient-data form, or the full form whose trailing field is the
`datetime.now().isoformat()` timestamp. -/
inductive DriftReport where
  | insufficient (drift_detected : Bool) (reason : String)
  | report (drift_detected confidence_drift processing_drift class_drift : Bool)
      (current_avg_confidence current_avg_processing_time : ℚ)
      (baseline_avg_confidence baseline_avg_processing_time : Option ℚ)
      (timestamp : String)
  deriving DecidableEq, Repr

/-- The `drift_detected` entry of the report. -/
def DriftReport.driftDetected : DriftReport → Bool
  | .insufficient dd _ => dd
  | .report dd _ _ _ _ _ _ _ _ => dd

/-- The `reason` entry of the report, absent from the full form. -/
def DriftReport.reasonField : DriftReport → Option String
  | .insufficient _ r => some r
  | .report _ _ _ _ _ _ _ _ _ => none

/-- The `confidence_drift` entry, absent from the short form. -/
def DriftReport.confidenceDriftField : DriftReport → Option Bool
  | .insufficient _ _ => none
  | .report _ cd _ _ _ _ _ _ _ => some cd

/-- The `class_drift` entry, absent from the short form. -/
def DriftReport.classDriftField : DriftReport → Option Bool
  | .insufficient _ _ => none
  | .report _ _ _ cld _ _ _ _ _ => some cld

/-- Whether the report carries the full field set (current and baseline
averages and a timestamp). -/
def DriftReport.isFullReport : DriftReport → Bool
  | .insufficient _ _ => false
  | .report _ _ _ _ _ _ _ _ _ => true

/-- The confidence-drift signal of `detect_drift`: set only when a
baseline exists and the mean of the last 100 confidences differs from
the baseline average by more than the threshold. -/
def confidenceDriftOf (m : ModelMonitor) : Bool :=
  match m.baseline_metrics with
  | none => false
  | some b => decide (m.drift_threshold < |mean (takeLast 100 m.confidence_history) - b.avg_confidence|)

/-- The processing-time-drift signal of `detect_drift`. -/
def processingDriftOf (m : ModelMonitor) : Bool :=
  match m.baseline_metrics with
  | none => false
  | some b => decide (m.drift_threshold < |mean (takeLast 100 m.processing_times) - b.avg_processing_time|)

/-- The class-distribution-drift signal of `detect_drift`: compares the
most recent distribution snapshot against the baseline's distribution,
class by class, firing when some ratio differs by more than the
threshold. -/
def classDriftOf (m : ModelMonitor) : Bool :=
  if m.class_distribution_history.isEmpty then false
  else
    let recent_dist := m.class_distribution_history.getLastD []
    match m.baseline_metrics with
    | none => false
    | some b =>
      if b.class_distribution.isEmpty then false
      else
        let baseline_total := sumVals b.class_distribution
        let recent_total := sumVals recent_dist
        if 0 < baseline_total ∧ 0 < recent_total then
          recent_dist.any fun kv =>
            decide (m.drift_threshold <
              |(lookupD b.class_distribution kv.1 : ℚ) / (baseline_total : ℚ) -
                (kv.2 : ℚ) / (recent_total : ℚ)|)
        else false

/-- Method `ModelMonitor.detect_drift`. The wall-clock timestamp is passed in
as `now`. With fewer than 50 records only the short form is returned;
otherwise the three signals are computed over the recent window and the
report carries the current averages and the optional baseline averages. -/
def detect_drift (m : ModelMonitor) (now : String) : DriftReport :=
  if m.predictions_history.length < 50 then
    .insufficient false "Insufficient data"
  else
    .report (confidenceDriftOf m || processingDriftOf m || classDriftOf m)
      (confidenceDriftOf m) (processingDriftOf m) (classDriftOf m)
      (mean (takeLast 100 m.confidence_history))
      (mean (takeLast 100 m.processing_times))
      (Option.map (fun b => b.avg_confidence) m.baseline_metrics)
      (Option.map (fun b => b.avg_processing_time) m.baseline_metrics)
      now

/-! ### Concrete records and monitor states used as test inputs -/

/-- A successful "cat" prediction with confidence 0.9. -/
def catRecord : PredictionRecord :=
  { timestamp := 0
    predicted_class := "cat"
    confidence := 9/10
    processing_time := 1/100
    input_size := (32, 32)
    success := true }

/-! ### Behaviour of the bounded deques -/

theorem dequeAppend_eq_takeLast {α : Type} (n : Nat) (xs : List α) (x : α) :
    dequeAppend n xs x = takeLast n (xs ++ [x]) := by
  unfold dequeAppend takeLast
  split
  · rfl
  · next h =>
    rw [Nat.sub_eq_zero_of_le (by omega), List.drop_zero]

theorem takeLast_of_le {α : Type} {n : Nat} {xs : List α} (h : xs.length ≤ n) :
    takeLast n xs = xs := by
  unfold takeLast
  rw [Nat.sub_eq_zero_of_le h, List.drop_zero]

theorem takeLast_length_le {α : Type} (n : Nat) (xs : List α) :
    (takeLast n xs).length ≤ n := by
  unfold takeLast
  rw [List.length_drop]
  omega

theorem takeLast_absorb {α : Type} (n : Nat) (ys ps : List α) :
    takeLast n (takeLast n ys ++ ps) = takeLast n (ys ++ ps) := by
  unfold takeLast
  rcases le_or_lt ys.length n with h | h
  · rw [Nat.sub_eq_zero_of_le h, List.drop_zero]
  · have hk : ys.length - n ≤ ys.length := Nat.sub_le _ _
    have h2 : (ys.drop (ys.length - n) ++ ps).length - n = ps.length := by
      simp only [List.length_append, List.length_drop]
      omega
    have h3 : (ys ++ ps).length - n = (ys.length - n) + ps.length := by
      simp only [List.length_append]
      omega
    rw [h2, h3, ← List.drop_drop, List.drop_append_of_le_length hk]

theorem foldl_dequeAppend {α : Type} (n : Nat) (ps : List α) (xs : List α)
    (h : xs.length ≤ n) :
    ps.foldl (dequeAppend n) xs = takeLast n (xs ++ ps) := by
  induction ps generalizing xs with
  | nil => rw [List.foldl_nil, List.append_nil, takeLast_of_le h]
  | cons p ps ih =>
    rw [List.foldl_cons,
      ih (dequeAppend n xs p) ((dequeAppend_eq_takeLast n xs p) ▸ takeLast_length_le n (xs ++ [p])),
      dequeAppend_eq_takeLast, takeLast_absorb, List.append_assoc]
    rfl

theorem dequeAppend_length {α : Type} (n : Nat) (xs : List α) (x : α) :
    (dequeAppend n xs x).length = min (xs.length + 1) n := by
  unfold dequeAppend
  split
  · next h =>
    simp only [List.length_append, List.length_singleton] at h
    simp only [List.length_drop, List.length_append, List.length_singleton]
    omega
  · next h =>
    simp only [List.length_append, List.length_singleton] at h
    simp only [List.length_append, List.length_singleton]
    omega

theorem dequeAppend_length_le {α : Type} (n : Nat) (xs : List α) (x : α)
    (h : xs.length ≤ n) : (dequeAppend n xs x).length ≤ n := by
  rw [dequeAppend_length]
  omega

theorem dequeAppend_map {α β : Type} (f : α → β) (n : Nat) (xs : List α) (x : α) :
    (dequeAppend n xs x).map f = dequeAppend n (xs.map f) (f x) := by
  have hlen : (xs.map f ++ [f x]).length = (xs ++ [x]).length := by simp
  unfold dequeAppend
  rcases Nat.lt_or_ge n (xs ++ [x]).length with h | h
  · rw [if_pos h, if_pos (by omega), List.map_drop, hlen]
    simp
  · rw [if_neg (by omega), if_neg (by omega)]
    simp

theorem dequeAppend_zero {α : Type} (xs : List α) (x : α) : dequeAppend 0 xs x = [] := by
  unfold dequeAppend
  rw [if_pos (by simp), Nat.sub_zero, List.drop_length]

theorem dequeAppend_getLastD {α : Type} {n : Nat} (hn : 0 < n) (xs : List α) (x d : α) :
    (dequeAppend n xs x).getLastD d = x := by
  rw [dequeAppend_eq_takeLast]
  unfold takeLast
  have hk : (xs ++ [x]).length - n ≤ xs.length := by
    simp only [List.length_append, List.length_singleton]
    omega
  rw [List.drop_append_of_le_length hk, List.getLastD_concat]

/-! ### The window-store invariant -/

/-- The parallel-sequence invariant of the window store: the confidence
and processing-time deques are the per-field images of the record deque,
all deques stay in lock step and within the capacity, and the most
recent distribution snapshot is the class count over the live window. -/
def MonitorInv (m : ModelMonitor) : Prop :=
  m.confidence_history = m.predictions_history.map (fun p => p.confidence) ∧
  m.processing_times = m.predictions_history.map (fun p => p.processing_time) ∧
  m.class_distribution_history.length = m.predictions_history.length ∧
  m.predictions_history.length ≤ m.window_size ∧
  m.class_distribution_history.getLastD [] = countDist m.predictions_history

theorem monitorInv_init (cap : Nat) (t : ℚ) : MonitorInv (initMonitor cap t) :=
  ⟨rfl, rfl, rfl, Nat.zero_le _, rfl⟩

theorem record_prediction_predictions_history (m : ModelMonitor) (p : PredictionRecord) :
    (record_prediction m p).predictions_history =
      dequeAppend m.window_size m.predictions_history p := rfl

theorem record_prediction_confidence_history (m : ModelMonitor) (p : PredictionRecord) :
    (record_prediction m p).confidence_history =
      dequeAppend m.window_size m.confidence_history p.confidence := rfl

theorem record_prediction_processing_times (m : ModelMonitor) (p : PredictionRecord) :
    (record_prediction m p).processing_times =
      dequeAppend m.window_size m.processing_times p.processing_time := rfl

theorem record_prediction_class_distribution_history (m : ModelMonitor) (p : PredictionRecord) :
    (record_prediction m p).class_distribution_history =
      dequeAppend m.window_size m.class_distribution_history
        (countDist (dequeAppend m.window_size m.predictions_history p)) := rfl

theorem record_prediction_window_size (m : ModelMonitor) (p : PredictionRecord) :
    (record_prediction m p).window_size = m.window_size := rfl

theorem monitorInv_record (m : ModelMonitor) (p : PredictionRecord)
    (h : MonitorInv m) : MonitorInv (record_prediction m p) := by
  obtain ⟨hc, hp, hl, hle, hlast⟩ := h
  unfold MonitorInv
  rw [record_prediction_predictions_history, record_prediction_confidence_history,
    record_prediction_processing_times, record_prediction_class_distribution_history,
    record_prediction_window_size]
  refine ⟨?_, ?_, ?_, ?_, ?_⟩
  · rw [hc, dequeAppend_map]
  · rw [hp, dequeAppend_map]
  · rw [dequeAppend_length, dequeAppend_length, hl]
  · exact dequeAppend_length_le _ _ _ hle
  · rcases Nat.eq_zero_or_pos m.window_size with h0 | h0
    · rw [h0]
      simp only [dequeAppend_zero]
      rfl
    · rw [dequeAppend_getLastD h0]

theorem monitorInv_recordAll (m : ModelMonitor) (ps : List PredictionRecord)
    (h : MonitorInv m) : MonitorInv (recordAll m ps) := by
  induction ps generalizing m with
  | nil => exact h
  | cons p ps ih => exact ih (record_prediction m p) (monitorInv_record m p h)

theorem recordAll_predictions_history (m : ModelMonitor) (ps : List PredictionRecord) :
    (recordAll m ps).predictions_history =
      ps.foldl (dequeAppend m.window_size) m.predictions_history := by
  induction ps generalizing m with
  | nil => rfl
  | cons p ps ih =>
    show (recordAll (record_prediction m p) ps).predictions_history = _
    rw [ih, List.foldl_cons]
    rfl

theorem runMonitor_predictions_history (cap : Nat) (t : ℚ) (ps : List PredictionRecord) :
    (runMonitor cap t ps).predictions_history = takeLast cap ps := by
  unfold runMonitor
  rw [recordAll_predictions_history]
  exact foldl_dequeAppend cap ps [] (Nat.zero_le _)

theorem get_metrics_total (m : ModelMonitor) :
    (get_metrics m).total_predictions = m.predictions_history.length := by
  unfold get_metrics
  split
  · next h => rw [List.isEmpty_iff.mp h]; rfl
  · rfl

theorem get_metrics_class_distribution (m : ModelMonitor) :
    (get_metrics m).class_distribution = countDist m.predictions_history := by
  unfold get_metrics
  split
  · next h => rw [List.isEmpty_iff.mp h]; rfl
  · rfl

/-! ### C1: FIFO window semantics -/

/-- C1: after recording any sequence of predictions into a fresh monitor,
the window holds exactly the min(count, capacity) most recent records in
recording order (oldest evicted first); after N ≤ capacity records the
snapshot's total_predictions is N; and with capacity 3 recording A,B,C,D
leaves exactly B,C,D stored in that order. -/
theorem spec_C1 (cap : Nat) (t : ℚ) (ps : List PredictionRecord) :
    (runMonitor cap t ps).predictions_history = ps.drop (ps.length - cap) ∧
    (ps.length ≤ cap →
      (get_metrics (runMonitor cap t ps)).total_predictions = ps.length) ∧
    ∀ a b c d : PredictionRecord,
      (runMonitor 3 t [a, b, c, d]).predictions_history = [b, c, d] := by
  refine ⟨runMonitor_predictions_history cap t ps, ?_, ?_⟩
  · intro h
    rw [get_metrics_total, runMonitor_predictions_history, takeLast_of_le h]
  · intro a b c d
    rw [runMonitor_predictions_history]
    rfl

/-- Four pairwise distinct concrete prediction records. -/
def recW1 : PredictionRecord := { catRecord with timestamp := 1 }

def recW2 : PredictionRecord := { catRecord with timestamp := 2 }

def recW3 : PredictionRecord := { catRecord with timestamp := 3 }

def recW4 : PredictionRecord := { catRecord with timestamp := 4 }

theorem spec_C1_witness :
    [recW1, recW2, recW3].length ≤ 3 ∧
    (get_metrics (runMonitor 3 (1/10) [recW1, recW2, recW3])).total_predictions = 3 ∧
    (runMonitor 3 (1/10) [recW1, recW2, recW3, recW4]).predictions_history =
      [recW2, recW3, recW4] :=
  ⟨by decide, (spec_C1 3 (1/10) [recW1, recW2, recW3]).2.1 (by decide),
    (spec_C1 3 (1/10) []).2.2 recW1 recW2 recW3 recW4⟩

/-! ### C9: the parallel-sequence invariant -/

/-- C9: in every state reachable by recording predictions into a fresh
monitor, the four window sequences have equal length, the confidence and
processing-time entries at each index come from the record at the same
index, and the most recent class-distribution snapshot equals the class
counts recomputed over the entire current records window (which is what
the aggregator recomputes). -/
theorem spec_C9 (cap : Nat) (t : ℚ) (ps : List PredictionRecord) :
    (runMonitor cap t ps).confidence_history.length =
      (runMonitor cap t ps).predictions_history.length ∧
    (runMonitor cap t ps).processing_times.length =
      (runMonitor cap t ps).predictions_history.length ∧
    (runMonitor cap t ps).class_distribution_history.length =
      (runMonitor cap t ps).predictions_history.length ∧
    (runMonitor cap t ps).confidence_history =
      (runMonitor cap t ps).predictions_history.map (fun p => p.confidence) ∧
    (runMonitor cap t ps).processing_times =
      (runMonitor cap t ps).predictions_history.map (fun p => p.processing_time) ∧
    (runMonitor cap t ps).class_distribution_history.getLastD [] =
      countDist (runMonitor cap t ps).predictions_history ∧
    (runMonitor cap t ps).class_distribution_history.getLastD [] =
      (get_metrics (runMonitor cap t ps)).class_distribution := by
  have hInv : MonitorInv (runMonitor cap t ps) :=
    monitorInv_recordAll (initMonitor cap t) ps (monitorInv_init cap t)
  obtain ⟨hc, hp, hl, hle, hlast⟩ := hInv
  exact ⟨by rw [hc, List.length_map], by rw [hp, List.length_map], hl, hc, hp, hlast,
    by rw [hlast, get_metrics_class_distribution]⟩

/-! ### C2: average confidence over successful records -/

theorem get_metrics_avg_confidence (m : ModelMonitor) :
    (get_metrics m).avg_confidence =
      ((m.predictions_history.filter fun p => p.success).map fun p => p.confidence).sum /
        ((m.predictions_history.filter fun p => p.success).length : ℚ) := by
  unfold get_metrics
  split
  · next h =>
    rw [List.isEmpty_iff.mp h]
    simp
  · next h =>
    show (if ((m.predictions_history.filter fun p => p.success).isEmpty) then (0:ℚ)
      else mean ((m.predictions_history.filter fun p => p.success).map fun p => p.confidence)) = _
    split
    · next hs =>
      rw [List.isEmpty_iff.mp hs]
      simp
    · unfold mean
      rw [List.length_map]

/-- C2: avg_confidence in the snapshot is the arithmetic mean of the
confidences of the successful records only (sum divided by count, the
division yielding 0 on the empty count), and is 0 when there is no
successful record in the window. -/
theorem spec_C2 (m : ModelMonitor) :
    (get_metrics m).avg_confidence =
      ((m.predictions_history.filter fun p => p.success).map fun p => p.confidence).sum /
        ((m.predictions_history.filter fun p => p.success).length : ℚ) ∧
    ((m.predictions_history.filter fun p => p.success) = [] →
      (get_metrics m).avg_confidence = 0) := by
  refine ⟨get_metrics_avg_confidence m, fun h => ?_⟩
  rw [get_metrics_avg_confidence m, h]
  simp

/-- A failed record carrying no successful confidence. -/
def failRecPlain : PredictionRecord :=
  { catRecord with timestamp := 7, success := false }

/-- A one-record monitor whose only record failed. -/
def mOneFail : ModelMonitor :=
  { window_size := 1000
    drift_threshold := 1/10
    predictions_history := [failRecPlain]
    confidence_history := [9/10]
    processing_times := [1/100]
    class_distribution_history := [[("cat", 1)]]
    baseline_metrics := none }

theorem spec_C2_witness :
    (mOneFail.predictions_history.filter fun p => p.success) = [] ∧
    (get_metrics mOneFail).avg_confidence = 0 :=
  ⟨rfl, (spec_C2 mOneFail).2 rfl⟩

/-! ### C10: snapshot idempotence -/

/-- C10: reading the metrics does not mutate the monitor, so two
consecutive snapshot calls with no intervening record return identical
results and leave the state unchanged. -/
theorem spec_C10 (m : ModelMonitor) :
    (get_metricsS (get_metricsS m).2).1 = (get_metricsS m).1 ∧
    (get_metricsS (get_metricsS m).2).2 = m :=
  ⟨rfl, rfl⟩

/-! ### C3: the insufficient-data gate -/

/-- C3 (amended): with fewer than 50 records in the window, regardless of
the baseline, detect_drift returns only drift_detected = false together
with the reason string "Insufficient data" (capitalised as the code
writes it), with none of the drift signals computed. -/
theorem spec_C3 (m : ModelMonitor) (now : String)
    (h : m.predictions_history.length < 50) :
    detect_drift m now = .insufficient false "Insufficient data" := by
  unfold detect_drift
  rw [if_pos h]

theorem spec_C3_witness :
    (initMonitor 1000 (1/10)).predictions_history.length < 50 ∧
    detect_drift (initMonitor 1000 (1/10)) "ts" = .insufficient false "Insufficient data" :=
  ⟨by decide, spec_C3 (initMonitor 1000 (1/10)) "ts" (by decide)⟩

/-- C3 counterexample: on an empty monitor the reason string produced by
detect_drift is "Insufficient data", not the lowercase "insufficient
data" the claim states. -/
theorem spec_C3_cex :
    (detect_drift (initMonitor 1000 (1/10)) "ts").reasonField = some "Insufficient data" ∧
    (detect_drift (initMonitor 1000 (1/10)) "ts").reasonField ≠ some "insufficient data" :=
  ⟨rfl, by decide⟩

/-! ### C8: the recent-errors list -/

/-- C8 (amended): recent_errors consists of the error messages among the
last 10 failed records, keeping only the non-null and non-empty ones, in
chronological order. -/
theorem spec_C8 (m : ModelMonitor) :
    (get_metrics m).recent_errors =
      (takeLast 10 (m.predictions_history.filter fun p => !p.success)).filterMap
        truthyMessage := by
  unfold get_metrics
  split
  · next h =>
    rw [List.isEmpty_iff.mp h]
    rfl
  · rfl

/-- A failed record with an error message. -/
def failRecMsg : PredictionRecord :=
  { catRecord with timestamp := 100, success := false, error_message := some "E1" }

/-- A failed record whose error message is null. -/
def failRecNone : PredictionRecord :=
  { catRecord with timestamp := 101, success := false }

/-- A failed record whose error message is the empty string. -/
def failRecEmpty : PredictionRecord :=
  { catRecord with timestamp := 102, success := false, error_message := some "" }

/-- Eleven failures: one with a message, then ten without. -/
def mElevenFails : ModelMonitor :=
  runMonitor 1000 (1/10) (failRecMsg :: List.replicate 10 failRecNone)

/-- A single failure carrying an empty-string message. -/
def mEmptyMsg : ModelMonitor :=
  runMonitor 1000 (1/10) [failRecEmpty]

/-- C8 counterexample: with eleven failed records of which only the
oldest carries a message, the code returns no recent errors while the
last 10 non-null messages among the failed records are ["E1"]; and a
non-null empty-string message is likewise dropped by the code. -/
theorem spec_C8_cex :
    ((get_metrics mElevenFails).recent_errors = [] ∧
      takeLast 10 ((mElevenFails.predictions_history.filter fun p => !p.success).filterMap
        fun p => p.error_message) = ["E1"]) ∧
    ((get_metrics mEmptyMsg).recent_errors = [] ∧
      (mEmptyMsg.predictions_history.filter fun p => !p.success).filterMap
        (fun p => p.error_message) = [""]) :=
  ⟨⟨rfl, rfl⟩, ⟨rfl, rfl⟩⟩

/-! ### C4 and C7: drift report shape -/

/-- C4: with at least 50 records and no baseline, all three drift
signals are false (hence drift_detected is false): a missing baseline
means "no drift" for each signal, not an error. -/
theorem spec_C4 (m : ModelMonitor) (now : String)
    (h : 50 ≤ m.predictions_history.length) (hb : m.baseline_metrics = none) :
    ∃ cavg cpt, detect_drift m now =
      .report false false false false cavg cpt none none now := by
  refine ⟨mean (takeLast 100 m.confidence_history),
    mean (takeLast 100 m.processing_times), ?_⟩
  unfold detect_drift confidenceDriftOf processingDriftOf classDriftOf
  rw [if_neg (by omega), hb]
  simp

/-- A directly-constructed window state holding 50 successful "cat"
records and no baseline. -/
def mFifty : ModelMonitor :=
  { window_size := 1000
    drift_threshold := 1/10
    predictions_history := List.replicate 50 catRecord
    confidence_history := List.replicate 50 (9/10)
    processing_times := List.replicate 50 (1/100)
    class_distribution_history := [[("cat", 50)]]
    baseline_metrics := none }

theorem spec_C4_witness :
    50 ≤ mFifty.predictions_history.length ∧ mFifty.baseline_metrics = none ∧
    ∃ cavg cpt, detect_drift mFifty "ts" =
      .report false false false false cavg cpt none none "ts" :=
  ⟨by decide, rfl, spec_C4 mFifty "ts" (by decide) rfl⟩

/-- C7 counterexample: on an empty window (fewer than 50 records) the
report contains only the drift flag and the reason, not the averages,
baseline values or timestamp the claim promises for every state. -/
theorem spec_C7_cex :
    (initMonitor 1000 (1/10)).predictions_history.length < 50 ∧
    (detect_drift (initMonitor 1000 (1/10)) "ts").isFullReport = false :=
  ⟨by decide, rfl⟩

/-- C7 (amended): for every window state with at least 50 records the
report includes the current average confidence, the current average
processing time, the baseline averages (null exactly when no baseline is
set, via the Option), and the timestamp of the call; with fewer than 50
records only the short insufficient-data form is returned. -/
theorem spec_C7 (m : ModelMonitor) (now : String)
    (h : 50 ≤ m.predictions_history.length) :
    ∃ dd cd pd cld,
      detect_drift m now = .report dd cd pd cld
        (mean (takeLast 100 m.confidence_history))
        (mean (takeLast 100 m.processing_times))
        (Option.map (fun b => b.avg_confidence) m.baseline_metrics)
        (Option.map (fun b => b.avg_processing_time) m.baseline_metrics)
        now := by
  refine ⟨confidenceDriftOf m || processingDriftOf m || classDriftOf m,
    confidenceDriftOf m, processingDriftOf m, classDriftOf m, ?_⟩
  unfold detect_drift
  rw [if_neg (by omega)]

theorem spec_C7_witness :
    50 ≤ mFifty.predictions_history.length ∧
    ∃ dd cd pd cld,
      detect_drift mFifty "tw" = .report dd cd pd cld
        (mean (takeLast 100 mFifty.confidence_history))
        (mean (takeLast 100 mFifty.processing_times))
        (Option.map (fun b => b.avg_confidence) mFifty.baseline_metrics)
        (Option.map (fun b => b.avg_processing_time) mFifty.baseline_metrics)
        "tw" :=
  ⟨by decide, spec_C7 mFifty "tw" (by decide)⟩

/-! ### C5: the class-distribution drift signal -/

/-- The baseline of the class-drift scenario: 50 "cat" and 50 "dog". -/
def baselineC5 : ModelMetrics :=
  { avg_confidence := 9/10
    avg_processing_time := 1/100
    class_distribution := [("cat", 50), ("dog", 50)] }

/-- The class-drift scenario: 50 recorded "cat" predictions with the
50/50 cat-dog baseline set. -/
def scenarioC5 : ModelMonitor :=
  set_baseline (runMonitor 1000 (1/10) (List.replicate 50 catRecord)) baselineC5

/-- C5: with at least 50 records and a baseline whose class distribution
is nonempty, the class_drift signal is true iff both totals are positive
and some class of the most recent snapshot has a ratio differing from
its baseline ratio by more than the threshold; in particular the 50/50
cat-dog baseline against an all-cat recent window fires at threshold
0.1. -/
theorem spec_C5 :
    (∀ (m : ModelMonitor) (now : String) (b : ModelMetrics),
      50 ≤ m.predictions_history.length → m.baseline_metrics = some b →
      b.class_distribution ≠ [] →
      ((detect_drift m now).classDriftField = some true ↔
        (0 < sumVals b.class_distribution ∧
          0 < sumVals (m.class_distribution_history.getLastD []) ∧
          ∃ kv ∈ m.class_distribution_history.getLastD [],
            m.drift_threshold <
              |(kv.2 : ℚ) / (sumVals (m.class_distribution_history.getLastD []) : ℚ) -
                (lookupD b.class_distribution kv.1 : ℚ) /
                  (sumVals b.class_distribution : ℚ)|))) ∧
    (detect_drift scenarioC5 "ts").classDriftField = some true := by
  constructor
  · intro m now b h50 hb hcd
    have hcd' : b.class_distribution.isEmpty = false := by
      cases hne : b.class_distribution.isEmpty
      · rfl
      · exact absurd (List.isEmpty_iff.mp hne) hcd
    unfold detect_drift
    rw [if_neg (by omega)]
    simp only [DriftReport.classDriftField, Option.some_inj]
    unfold classDriftOf
    rw [hb]
    cases hh : m.class_distribution_history.isEmpty
    · simp only [Bool.false_eq_true, if_false, hcd']
      by_cases hq : 0 < sumVals b.class_distribution ∧
          0 < sumVals (m.class_distribution_history.getLastD [])
      · rw [if_pos hq, List.any_eq_true]
        constructor
        · rintro ⟨kv, hmem, hf⟩
          rw [decide_eq_true_eq] at hf
          exact ⟨hq.1, hq.2, kv, hmem, by rwa [abs_sub_comm] at hf⟩
        · rintro ⟨h1, h2, kv, hmem, hlt⟩
          refine ⟨kv, hmem, ?_⟩
          rw [decide_eq_true_eq]
          rwa [abs_sub_comm] at hlt
      · rw [if_neg hq]
        constructor
        · intro hf
          exact absurd hf (by simp)
        · rintro ⟨h1, h2, -⟩
          exact absurd ⟨h1, h2⟩ hq
    · rw [List.isEmpty_iff.mp hh]
      simp [sumVals]
  · have hlen : ¬ scenarioC5.predictions_history.length < 50 := by decide
    have hh : scenarioC5.class_distribution_history.isEmpty = false := by decide
    have hlast : scenarioC5.class_distribution_history.getLastD [] = [("cat", 50)] := by
      decide
    have hbase : scenarioC5.baseline_metrics = some baselineC5 := rfl
    unfold detect_drift
    rw [if_neg hlen]
    simp only [DriftReport.classDriftField, Option.some_inj]
    unfold classDriftOf
    rw [hh, hbase, hlast]
    simp only [Bool.false_eq_true, if_false,
      show baselineC5.class_distribution = [("cat", 50), ("dog", 50)] from rfl,
      show scenarioC5.drift_threshold = 1/10 from rfl]
    rw [if_neg (by decide), if_pos (by constructor <;> decide)]
    simp only [List.any_cons, List.any_nil, Bool.or_false, decide_eq_true_eq]
    show (1:ℚ)/10 < |(lookupD [("cat", 50), ("dog", 50)] "cat" : ℚ) /
      (sumVals [("cat", 50), ("dog", 50)] : ℚ) - ((50:ℕ) : ℚ) / (sumVals [("cat", 50)] : ℚ)|
    rw [show lookupD [("cat", 50), ("dog", 50)] "cat" = 50 from rfl,
      show sumVals [("cat", 50), ("dog", 50)] = 100 from rfl,
      show sumVals [("cat", 50)] = 50 from rfl]
    rw [show ((50:ℕ) : ℚ) / ((100:ℕ) : ℚ) - ((50:ℕ) : ℚ) / ((50:ℕ) : ℚ) = -(1/2) by
      push_cast
      norm_num]
    rw [abs_neg, abs_of_nonneg (by norm_num)]
    norm_num

theorem spec_C5_witness :
    50 ≤ scenarioC5.predictions_history.length ∧
    scenarioC5.baseline_metrics = some baselineC5 ∧
    baselineC5.class_distribution ≠ [] ∧
    ((detect_drift scenarioC5 "tw").classDriftField = some true ↔
      (0 < sumVals baselineC5.class_distribution ∧
        0 < sumVals (scenarioC5.class_distribution_history.getLastD []) ∧
        ∃ kv ∈ scenarioC5.class_distribution_history.getLastD [],
          scenarioC5.drift_threshold <
            |(kv.2 : ℚ) / (sumVals (scenarioC5.class_distribution_history.getLastD []) : ℚ) -
              (lookupD baselineC5.class_distribution kv.1 : ℚ) /
                (sumVals baselineC5.class_distribution : ℚ)|)) :=
  ⟨by decide, rfl, by decide,
    spec_C5.1 scenarioC5 "tw" baselineC5 (by decide) rfl (by decide)⟩

/-! ### C6: the confidence-drift scenario -/

/-- A successful "cat" prediction with confidence 0.5. -/
def recHalf : PredictionRecord :=
  { catRecord with timestamp := 10, confidence := 5/10 }

/-- 60 recorded predictions at confidence 0.9, no baseline. -/
def m60 : ModelMonitor := runMonitor 1000 (1/10) (List.replicate 60 catRecord)

/-- The same monitor after baselining its own metrics and recording 50
further predictions at confidence 0.5. -/
def m110 : ModelMonitor :=
  recordAll (set_baseline m60 (get_metrics m60)) (List.replicate 50 recHalf)

/-- C6: after 60 predictions at confidence 0.9 with no baseline,
detect_drift reports no drift; the metrics then capture avg_confidence
0.9 as baseline, and after 50 further predictions at confidence 0.5 the
confidence_drift signal fires (the mean of the most recent 100
confidences, 0.7, differs from the 0.9 baseline by more than 0.1). -/
theorem spec_C6 :
    (detect_drift m60 "t1").driftDetected = false ∧
    (get_metrics m60).avg_confidence = 9/10 ∧
    (detect_drift m110 "t2").confidenceDriftField = some true := by
  have hb60 : m60.baseline_metrics = none := rfl
  have hlen60 : ¬ m60.predictions_history.length < 50 := by decide
  have havg : (get_metrics m60).avg_confidence = mean (List.replicate 60 ((9:ℚ)/10)) := rfl
  have hmean60 : mean (List.replicate 60 ((9:ℚ)/10)) = 9/10 := by
    unfold mean
    rw [List.sum_replicate, List.length_replicate, nsmul_eq_mul]
    norm_num
  refine ⟨?_, ?_, ?_⟩
  · unfold detect_drift
    rw [if_neg hlen60]
    unfold DriftReport.driftDetected confidenceDriftOf processingDriftOf classDriftOf
    rw [hb60]
    simp
  · rw [havg, hmean60]
  · have hlen110 : ¬ m110.predictions_history.length < 50 := by decide
    have hb110 : m110.baseline_metrics = some (get_metrics m60) := rfl
    have hconf : takeLast 100 m110.confidence_history =
        List.replicate 50 ((9:ℚ)/10) ++ List.replicate 50 ((5:ℚ)/10) := rfl
    have hthr : m110.drift_threshold = 1/10 := rfl
    have hmean100 : mean (List.replicate 50 ((9:ℚ)/10) ++ List.replicate 50 ((5:ℚ)/10)) =
        7/10 := by
      unfold mean
      rw [List.sum_append, List.sum_replicate, List.sum_replicate, List.length_append,
        List.length_replicate, List.length_replicate, nsmul_eq_mul, nsmul_eq_mul]
      norm_num
    unfold detect_drift
    rw [if_neg hlen110]
    simp only [DriftReport.confidenceDriftField, Option.some_inj]
    unfold confidenceDriftOf
    rw [hb110, hthr, hconf]
    show decide ((1:ℚ)/10 < |mean (List.replicate 50 ((9:ℚ)/10) ++ List.replicate 50 ((5:ℚ)/10)) -
      (get_metrics m60).avg_confidence|) = true
    rw [havg, hmean60, hmean100,
      show (7:ℚ)/10 - 9/10 = -(1/5) by norm_num, abs_neg, abs_of_nonneg (by norm_num)]
    simp only [decide_eq_true_eq]
    norm_num

end CifarMonitoring
